import Mathlib

/-!
Verification of the mbot trading engine core (`bot_core.py`, `storage.py`).

Numbers are modelled as rationals (`ℚ`): the Python code uses IEEE floats,
and every claim below is settled for the exact-arithmetic reading of the
same expressions.  A Python call that can raise an exception is modelled
with `Option`/`Except` (`none`/`.error` = the call raised).
-/

namespace MBot

/-- The `LOT_SIZE` / `MIN_NOTIONAL` exchange filters, as read by
`conform_qty_and_notional` (`bot_core.py` lines 52-59).  The dict-lookup
defaults (`minQty=0`, `maxQty=1e12`, `stepSize=1e-8`, `minNotional=0`)
are supplied by the caller as field values. -/
structure SymbolFilters where
  minQty : ℚ
  maxQty : ℚ
  stepSize : ℚ
  minNotional : ℚ
deriving Repr, DecidableEq

/-- Python `round_step_size` (`bot_core.py` lines 48-50): floor to a multiple of
`step_size`, returning the quantity unchanged when `step_size ≤ 0`. -/
def round_step_size (quantity step_size : ℚ) : ℚ :=
  if step_size ≤ 0 then quantity
  else (⌊quantity / step_size⌋ : ℤ) * step_size

/-- Python `conform_qty_and_notional` (`bot_core.py` lines 52-67): clamp to
`[minQty, maxQty]`, round down to the step, and if the notional is below
`minNotional` recompute the quantity as
`round_step_size(minNotional / price * 1.01, step)`.
`none` models the `ZeroDivisionError` Python raises on `min_notional / price`
when the bump branch runs with `price = 0`. -/
def conform_qty_and_notional (qty price : ℚ) (f : SymbolFilters) : Option ℚ :=
  let qty1 := max f.minQty (min qty f.maxQty)
  let qty2 := round_step_size qty1 f.stepSize
  if qty2 * price < f.minNotional then
    if price = 0 then none
    else some (round_step_size (f.minNotional / price * (101 / 100)) f.stepSize)
  else
    some qty2

/-- The pure core of `Bot._compute_qty` (`bot_core.py` lines 191-211), as a
function of the fetched quote balance, the bot's `risk_pct` and `max_pos`
settings, the reference price and the symbol filters:
`amount = bal * risk_pct`, capped by `max_pos` when `max_pos > 0`;
`raw_qty = amount / price if price > 0 else 0.0`; then
`conform_qty_and_notional(raw_qty, price, filters)`. -/
def compute_qty_core (bal risk_pct max_pos price : ℚ) (f : SymbolFilters) : Option ℚ :=
  let amount := bal * risk_pct
  let amount2 := if 0 < max_pos then min amount max_pos else amount
  let raw_qty := if 0 < price then amount2 / price else 0
  conform_qty_and_notional raw_qty price f

/-! ## Indicator engine

A pandas column over the fetched window is modelled as a function `ℕ → ℚ`
(for columns with no missing values) or `ℕ → Option ℚ` (`none` = `NaN`).
All claims are per-index, so no explicit window length is carried here. -/

/-- Pandas `series.replace(0, np.nan)`: a present value equal to `0` becomes `NaN`. -/
def replace0 (o : Option ℚ) : Option ℚ :=
  o.bind fun x => if x = 0 then none else some x

/-- Sum of the trailing window `xs t, xs (t-1), …, xs (t-k+1)`;
`none` as soon as one entry is `NaN` (pandas `rolling` does not skip `NaN`). -/
def windowSum (xs : ℕ → Option ℚ) (t : ℕ) : ℕ → Option ℚ
  | 0 => some 0
  | k + 1 => (xs (t - k)).bind fun v => (windowSum xs t k).map fun s => v + s

/-- Pandas `series.rolling(window=len).mean()` at index `t`: `NaN` while fewer than
`len` observations exist (`min_periods` defaults to the window size), else the
mean of the trailing `len` entries. -/
def rollingMean (len : ℕ) (xs : ℕ → Option ℚ) (t : ℕ) : Option ℚ :=
  if t + 1 < len then none
  else (windowSum xs t len).map fun s => s / (len : ℚ)

/-- Pandas `series.diff()`: `NaN` at index 0, else the change from the previous bar. -/
def delta (closes : ℕ → ℚ) (t : ℕ) : Option ℚ :=
  match t with
  | 0 => none
  | n + 1 => some (closes (n + 1) - closes n)

/-- Column `delta.where(delta > 0, 0.0)` (`bot_core.py` line 19): the positive
change, `0` otherwise; the `NaN` at index 0 fails the condition and becomes
`0.0`. -/
def gain (closes : ℕ → ℚ) (t : ℕ) : ℚ :=
  match delta closes t with
  | some d => if d > 0 then d else 0
  | none => 0

/-- Column `-delta.where(delta < 0, 0.0)` (`bot_core.py` line 20): the magnitude of
the negative change, `0` otherwise (`NaN` at index 0 → `0.0`). -/
def loss (closes : ℕ → ℚ) (t : ℕ) : ℚ :=
  match delta closes t with
  | some d => if d < 0 then -d else 0
  | none => 0

/-- Trailing mean of `gain` over the RSI period. -/
def avgGain (closes : ℕ → ℚ) (len t : ℕ) : Option ℚ :=
  rollingMean len (fun i => some (gain closes i)) t

/-- Trailing mean of `loss` over the RSI period. -/
def avgLoss (closes : ℕ → ℚ) (len t : ℕ) : Option ℚ :=
  rollingMean len (fun i => some (loss closes i)) t

/-- Column `rs = gain / loss.replace(0, np.nan)` (`bot_core.py` line 21). -/
def rs (closes : ℕ → ℚ) (len t : ℕ) : Option ℚ :=
  (avgGain closes len t).bind fun g =>
    (replace0 (avgLoss closes len t)).map fun l => g / l

/-- Function `rsi` (`bot_core.py` lines 17-23): `100 - 100/(1 + rs)` with every `NaN`
(whether from missing history or from the zero-`avgLoss` guard) filled
with `50`. -/
def rsiAt (closes : ℕ → ℚ) (len t : ℕ) : ℚ :=
  match rs closes len t with
  | some r => 100 - 100 / (1 + r)
  | none => 50

/-- Pandas `series.ewm(span=length, adjust=False).mean()` (`bot_core.py` lines
14-15): seeded with the first close, recurrence
`ema[t] = α·close[t] + (1-α)·ema[t-1]` with `α = 2/(span+1)`. -/
def emaAt (closes : ℕ → ℚ) (span : ℕ) : ℕ → ℚ
  | 0 => closes 0
  | t + 1 =>
      (2 / ((span : ℚ) + 1)) * closes (t + 1)
        + (1 - 2 / ((span : ℚ) + 1)) * emaAt closes span t

/-- True range (`bot_core.py` lines 26-31): row-max of `|high-low|`,
`|high-prevClose|`, `|low-prevClose|`; at index 0 the `prevClose` legs are
`NaN` and the row-max (which skips `NaN`) is `|high-low|`. -/
def tr (high low close : ℕ → ℚ) (t : ℕ) : ℚ :=
  match t with
  | 0 => |high 0 - low 0|
  | n + 1 =>
      max |high (n + 1) - low (n + 1)|
        (max |high (n + 1) - close n| |low (n + 1) - close n|)

/-- Column `up_move = high.diff()`. -/
def up_move (high : ℕ → ℚ) (t : ℕ) : Option ℚ :=
  match t with
  | 0 => none
  | n + 1 => some (high (n + 1) - high n)

/-- Column `down_move = -low.diff()`. -/
def down_move (low : ℕ → ℚ) (t : ℕ) : Option ℚ :=
  match t with
  | 0 => none
  | n + 1 => some (low n - low (n + 1))

/-- Column `plus_dm = up_move.where((up_move > down_move) & (up_move > 0), 0.0)`
(index 0: `NaN` condition is false, so `0.0`). -/
def plus_dm (high low : ℕ → ℚ) (t : ℕ) : ℚ :=
  match up_move high t, down_move low t with
  | some u, some d => if u > d ∧ u > 0 then u else 0
  | _, _ => 0

/-- Column `minus_dm = down_move.where((down_move > up_move) & (down_move > 0), 0.0)`. -/
def minus_dm (high low : ℕ → ℚ) (t : ℕ) : ℚ :=
  match up_move high t, down_move low t with
  | some u, some d => if d > u ∧ d > 0 then d else 0
  | _, _ => 0

/-- Column `atr = tr.rolling(window=length).mean()`. -/
def atr (high low close : ℕ → ℚ) (len t : ℕ) : Option ℚ :=
  rollingMean len (fun i => some (tr high low close i)) t

/-- Column `plus_di = 100 * (plus_dm.rolling(length).mean() / atr.replace(0, nan))`
(`bot_core.py` line 37), before the final `fillna(0)`. -/
def plus_di (high low close : ℕ → ℚ) (len t : ℕ) : Option ℚ :=
  (rollingMean len (fun i => some (plus_dm high low i)) t).bind fun p =>
    (replace0 (atr high low close len t)).map fun a => 100 * (p / a)

/-- Column `minus_di`, before the final `fillna(0)`. -/
def minus_di (high low close : ℕ → ℚ) (len t : ℕ) : Option ℚ :=
  (rollingMean len (fun i => some (minus_dm high low i)) t).bind fun m =>
    (replace0 (atr high low close len t)).map fun a => 100 * (m / a)

/-- Column `dx = (|plus_di - minus_di| / (plus_di + minus_di).replace(0, nan)) * 100`
(`bot_core.py` line 39). -/
def dx (high low close : ℕ → ℚ) (len t : ℕ) : Option ℚ :=
  (plus_di high low close len t).bind fun p =>
    (minus_di high low close len t).bind fun m =>
      (replace0 (some (p + m))).map fun s => |p - m| / s * 100

/-- Column `adx = dx.rolling(window=smoothing).mean()`, before the final `fillna(0)`. -/
def adx (high low close : ℕ → ℚ) (len smooth t : ℕ) : Option ℚ :=
  rollingMean smooth (fun i => dx high low close len i) t

/-- The `plusDI` column returned by `dmi_adx`: `plus_di.fillna(0)`. -/
def plusDI (high low close : ℕ → ℚ) (len t : ℕ) : ℚ :=
  (plus_di high low close len t).getD 0

/-- The `minusDI` column returned by `dmi_adx`: `minus_di.fillna(0)`. -/
def minusDI (high low close : ℕ → ℚ) (len t : ℕ) : ℚ :=
  (minus_di high low close len t).getD 0

/-- The `adxVal` column returned by `dmi_adx`: `adx.fillna(0)`. -/
def adxVal (high low close : ℕ → ℚ) (len smooth t : ℕ) : ℚ :=
  (adx high low close len smooth t).getD 0

/-! ## Trend-phase classifier (`TrendPhases`, `bot_core.py` lines 79-112) -/

/-- The constructor parameters of `TrendPhases`, with the source defaults. -/
structure TrendPhases where
  ema_short : ℕ := 20
  ema_long : ℕ := 50
  rsi_len : ℕ := 14
  adx_len : ℕ := 14
  adx_smooth : ℕ := 14
  adx_thr : ℚ := 25
  rsi_up : ℚ := 55
  rsi_down : ℚ := 35
deriving Repr

/-- Comparison `emaShort > emaShort.shift(1)` at index `t`; at `t = 0` the shifted value
is `NaN` and the pandas comparison is `False`. -/
def emaRising (closes : ℕ → ℚ) (span : ℕ) (t : ℕ) : Bool :=
  match t with
  | 0 => false
  | n + 1 => decide (emaAt closes span (n + 1) > emaAt closes span n)

/-- Comparison `emaShort < emaShort.shift(1)` at index `t` (`False` at `t = 0`). -/
def emaFalling (closes : ℕ → ℚ) (span : ℕ) (t : ℕ) : Bool :=
  match t with
  | 0 => false
  | n + 1 => decide (emaAt closes span (n + 1) < emaAt closes span n)

/-- The `strongUpTrend` column (`bot_core.py` lines 94-100). -/
def strongUpTrend (p : TrendPhases) (high low close : ℕ → ℚ) (t : ℕ) : Bool :=
  decide (emaAt close p.ema_short t > emaAt close p.ema_long t) &&
  decide (plusDI high low close p.adx_len t > minusDI high low close p.adx_len t) &&
  decide (rsiAt close p.rsi_len t > p.rsi_up) &&
  decide (adxVal high low close p.adx_len p.adx_smooth t > p.adx_thr) &&
  emaRising close p.ema_short t

/-- The `strongDownTrend` column (`bot_core.py` lines 101-107). -/
def strongDownTrend (p : TrendPhases) (high low close : ℕ → ℚ) (t : ℕ) : Bool :=
  decide (emaAt close p.ema_short t < emaAt close p.ema_long t) &&
  decide (minusDI high low close p.adx_len t > plusDI high low close p.adx_len t) &&
  decide (rsiAt close p.rsi_len t < p.rsi_down) &&
  decide (adxVal high low close p.adx_len p.adx_smooth t > p.adx_thr) &&
  emaFalling close p.ema_short t

/-- Pandas `col.shift(1).fillna(False)`: the previous bar's boolean, `False` at 0. -/
def shiftB (f : ℕ → Bool) (t : ℕ) : Bool :=
  match t with
  | 0 => false
  | n + 1 => f n

/-- Column `debutHausse = strongUpTrend & ~strongUpTrend.shift(1).fillna(False)`
(`bot_core.py` line 108). -/
def debutHausse (p : TrendPhases) (high low close : ℕ → ℚ) (t : ℕ) : Bool :=
  strongUpTrend p high low close t && !(shiftB (strongUpTrend p high low close) t)

/-- Column `debutBaisse` (`bot_core.py` line 109). -/
def debutBaisse (p : TrendPhases) (high low close : ℕ → ℚ) (t : ℕ) : Bool :=
  strongDownTrend p high low close t && !(shiftB (strongDownTrend p high low close) t)

/-- Column `finHausse = strongUpTrend.shift(1).fillna(False) & ~strongUpTrend`
(`bot_core.py` line 110). -/
def finHausse (p : TrendPhases) (high low close : ℕ → ℚ) (t : ℕ) : Bool :=
  shiftB (strongUpTrend p high low close) t && !(strongUpTrend p high low close t)

/-- Column `finBaisse` (`bot_core.py` line 111). -/
def finBaisse (p : TrendPhases) (high low close : ℕ → ℚ) (t : ℕ) : Bool :=
  shiftB (strongDownTrend p high low close) t && !(strongDownTrend p high low close t)

/-! ## Execution engine (`Bot`, `bot_core.py` lines 114-233)

One loop iteration (`Bot.run`, lines 139-184) is modelled as a function of
the bot's mutable state and of the responses the exchange gives during that
tick.  Each fallible exchange call is an `Except Unit _` field (`.error` =
the Python call raised); the `try/except` wrapping the loop body (lines
181-184) is the `raised` flag of the result.  Time-stamps (`close_time`)
are modelled as integers. -/

/-- Field `self.pos_side`: only the strings `"FLAT"` and `"LONG"` are ever
assigned. -/
inductive Side where
  | FLAT
  | LONG
deriving Repr, DecidableEq

/-- The `side` column of a trade row. -/
inductive TradeSide where
  | BUY
  | SELL
deriving Repr, DecidableEq

/-- A `trades` row as written by `insert_trade` (`storage.py` lines 84-93);
`notional` is computed there as `qty*price`; `pnl` is nullable. -/
structure TradeRecord where
  side : TradeSide
  qty : ℚ
  price : ℚ
  notional : ℚ
  pnl : Option ℚ
  extra : String
deriving Repr, DecidableEq

/-- A market order submitted through `client.create_order`. -/
structure OrderReq where
  side : TradeSide
  qty : ℚ
deriving Repr, DecidableEq

/-- The bot's per-instrument mutable state (`bot_core.py` lines 127-128). -/
structure BotState where
  pos_side : Side
  pos_qty : ℚ
  entry_price : ℚ
  last_close_time : Option ℤ
deriving Repr, DecidableEq

/-- The state set by `Bot.__init__` (line 127): flat, quantity 0. -/
def initState : BotState := ⟨Side.FLAT, 0, 0, none⟩

/-- The bot's configuration fields used by the loop body. -/
structure BotConfig where
  risk_pct : ℚ
  max_pos : ℚ
  dry_run : Bool
deriving Repr, DecidableEq

/-- The fetched kline window: OHLC columns and the index `n-1` of the last
row (`iloc[-1]`), plus that row's `close_time`. -/
structure Window where
  high : ℕ → ℚ
  low : ℕ → ℚ
  close : ℕ → ℚ
  n : ℕ
  nct : ℤ

/-- The exchange's responses during one tick; `.error` models a raised
exception in the corresponding client call. -/
structure Exchange where
  klines : Except Unit Window
  ticker : Except Unit ℚ
  account_bal : Except Unit ℚ
  filters : Except Unit SymbolFilters
  buy_order : Except Unit Unit
  sell_order : Except Unit Unit

/-- The per-tick values the loop body reads off the last row of the
computed window: its close time, close price and the four edge flags
(`bot_core.py` lines 143, 150, 152-155). -/
structure BarSignals where
  nct : ℤ
  price : ℚ
  debutHausse : Bool
  debutBaisse : Bool
  finHausse : Bool
  finBaisse : Bool
deriving Repr, DecidableEq

/-- What one loop iteration did: the state it left behind, the trade rows
inserted, the orders submitted to the exchange, and whether the body
raised (landing in the `except` arms, lines 181-184). -/
structure TickResult where
  state : BotState
  trades : List TradeRecord
  orders : List OrderReq
  raised : Bool
deriving Repr, DecidableEq

/-- Method `Bot._set_flat` (lines 231-233). -/
def set_flat (s : BotState) : BotState :=
  { s with pos_side := Side.FLAT, pos_qty := 0, entry_price := 0 }

/-- Method `Bot._set_long` (lines 227-229). -/
def set_long (s : BotState) (qty price : ℚ) : BotState :=
  { s with pos_side := Side.LONG, pos_qty := qty, entry_price := price }

/-- The SELL row of an exit (`bot_core.py` lines 169-170 and
`storage.py` line 92): `pnl = (price - entry_price) * qty`. -/
def sellRec (qty price entry : ℚ) : TradeRecord :=
  ⟨TradeSide.SELL, qty, price, qty * price, some ((price - entry) * qty), "exit"⟩

/-- The BUY row of an entry (`bot_core.py` line 178): no pnl. -/
def buyRec (qty price : ℚ) : TradeRecord :=
  ⟨TradeSide.BUY, qty, price, qty * price, none, "entry"⟩

/-- Method `Bot._compute_qty` (lines 191-211) given this tick's exchange
responses: the `get_account` failure is caught internally (balance stays
`0.0`), a `symbol_filters` failure propagates, and a `none` from
`conform_qty_and_notional` is the `ZeroDivisionError` propagating. -/
def compute_qty (cfg : BotConfig) (ex : Exchange) (price : ℚ) : Except Unit ℚ :=
  let bal : ℚ := match ex.account_bal with
    | .ok b => b
    | .error _ => 0
  match ex.filters with
  | .error e => .error e
  | .ok f =>
      match compute_qty_core bal cfg.risk_pct cfg.max_pos price f with
      | none => Except.error ()
      | some q => Except.ok q

/-- The decision part of the loop body (`bot_core.py` lines 146-179), run
after the dedup check: update `last_close_time`, then branch on the
position side and the edge flags. -/
def tickBody (cfg : BotConfig) (s : BotState) (sig : BarSignals) (ex : Exchange) :
    TickResult :=
  let s1 : BotState := { s with last_close_time := some sig.nct }
  match s.pos_side with
  | Side.LONG =>
      if sig.debutBaisse || sig.finHausse then
        let qty := s.pos_qty
        if 0 < qty then
          if cfg.dry_run then
            ⟨set_flat s1, [sellRec qty sig.price s.entry_price], [], false⟩
          else
            match ex.sell_order with
            | .error _ => ⟨s1, [], [], true⟩
            | .ok _ =>
                ⟨set_flat s1, [sellRec qty sig.price s.entry_price],
                  [⟨TradeSide.SELL, qty⟩], false⟩
        else ⟨set_flat s1, [], [], false⟩
      else ⟨s1, [], [], false⟩
  | Side.FLAT =>
      if sig.debutHausse then
        match ex.ticker with
        | .error _ => ⟨s1, [], [], true⟩
        | .ok price_now =>
            match compute_qty cfg ex price_now with
            | .error _ => ⟨s1, [], [], true⟩
            | .ok qty =>
                if 0 < qty then
                  if cfg.dry_run then
                    ⟨set_long s1 qty price_now, [buyRec qty price_now], [], false⟩
                  else
                    match ex.buy_order with
                    | .error _ => ⟨s1, [], [], true⟩
                    | .ok _ =>
                        ⟨set_long s1 qty price_now, [buyRec qty price_now],
                          [⟨TradeSide.BUY, qty⟩], false⟩
                else ⟨s1, [], [], false⟩
      else ⟨s1, [], [], false⟩

/-- One loop iteration given the last row's signals: the dedup check
(`bot_core.py` lines 144-145; `continue` leaves everything untouched),
then `tickBody`. -/
def tickSig (cfg : BotConfig) (s : BotState) (sig : BarSignals) (ex : Exchange) :
    TickResult :=
  match s.last_close_time with
  | some l => if sig.nct ≤ l then ⟨s, [], [], false⟩ else tickBody cfg s sig ex
  | none => tickBody cfg s sig ex

/-- The last row's signals as computed by `self.strat.compute(new_df)`
(lines 148-155): the strategy is `TrendPhases()` with all defaults
(line 126). -/
def signalsOf (w : Window) : BarSignals :=
  let p : TrendPhases := {}
  let t := w.n - 1
  ⟨w.nct, w.close t,
    debutHausse p w.high w.low w.close t,
    debutBaisse p w.high w.low w.close t,
    finHausse p w.high w.low w.close t,
    finBaisse p w.high w.low w.close t⟩

/-- One full loop iteration (`bot_core.py` lines 139-184): fetch the
window (a raise lands in the `except` arm with nothing changed), compute
the indicator columns and run the decision body. -/
def tick (cfg : BotConfig) (s : BotState) (ex : Exchange) : TickResult :=
  match ex.klines with
  | .error _ => ⟨s, [], [], true⟩
  | .ok w => tickSig cfg s (signalsOf w) ex

/-- The specified position invariant: `Position.side = FLAT ⇔ quantity = 0`. -/
def PosInvariant (s : BotState) : Prop :=
  s.pos_side = Side.FLAT ↔ s.pos_qty = 0

end MBot

namespace MBot

/-- C4: `beginUptrend[t] ⇔ strongUptrend[t] ∧ ¬strongUptrend[t-1]` with an
undefined predecessor treated as false, hence false at `t = 0`; and the
same, mirrored, for `endUptrend`, `beginDowntrend`, `endDowntrend`. -/
theorem edge_flags_correct (p : TrendPhases) (high low close : ℕ → ℚ) (t : ℕ) :
    (debutHausse p high low close t = true ↔
      (strongUpTrend p high low close t = true ∧
        ¬ (match t with
           | 0 => False
           | n + 1 => strongUpTrend p high low close n = true))) ∧
    debutHausse p high low close 0 = false ∧
    (finHausse p high low close t = true ↔
      (¬ strongUpTrend p high low close t = true ∧
        (match t with
         | 0 => False
         | n + 1 => strongUpTrend p high low close n = true))) ∧
    finHausse p high low close 0 = false ∧
    (debutBaisse p high low close t = true ↔
      (strongDownTrend p high low close t = true ∧
        ¬ (match t with
           | 0 => False
           | n + 1 => strongDownTrend p high low close n = true))) ∧
    debutBaisse p high low close 0 = false ∧
    (finBaisse p high low close t = true ↔
      (¬ strongDownTrend p high low close t = true ∧
        (match t with
         | 0 => False
         | n + 1 => strongDownTrend p high low close n = true))) ∧
    finBaisse p high low close 0 = false := by
  have h0up : strongUpTrend p high low close 0 = false := by
    simp [strongUpTrend, emaRising]
  have h0dn : strongDownTrend p high low close 0 = false := by
    simp [strongDownTrend, emaFalling]
  refine ⟨?_, ?_, ?_, ?_, ?_, ?_, ?_, ?_⟩ <;>
    cases t <;>
      simp_all [debutHausse, debutBaisse, finHausse, finBaisse, shiftB,
        and_comm]

/-- C7: when the fetched window's newest close time is not strictly newer
than the last processed one, the tick is skipped entirely: the state
(position and last processed close time) is unchanged and no trade and no
order is produced, whatever the signals were. -/
theorem dedup_skips_tick (cfg : BotConfig) (s : BotState) (sig : BarSignals)
    (ex : Exchange) (l : ℤ) (hl : s.last_close_time = some l)
    (hle : sig.nct ≤ l) :
    tickSig cfg s sig ex = ⟨s, [], [], false⟩ := by
  simp [tickSig, hl, hle]

/-- Witness for C7 at a concrete repeated close time. -/
theorem dedup_skips_tick_witness :
    tickSig ⟨1/10, 0, true⟩ ⟨Side.FLAT, 0, 0, some 5⟩ ⟨5, 100, true, false, false, false⟩
        ⟨Except.error (), Except.error (), Except.error (), Except.error (),
          Except.error (), Except.error ()⟩
      = ⟨⟨Side.FLAT, 0, 0, some 5⟩, [], [], false⟩ :=
  dedup_skips_tick _ _ _ _ 5 rfl (by norm_num)

/-- C5: the invariant `side = FLAT ⇔ quantity = 0` holds of the initial
state and is preserved by every tick, and a tick's BUY trade only happens
from a FLAT state while a SELL trade only happens from a LONG state and
carries the full held quantity. -/
theorem position_machine_invariant (cfg : BotConfig) (s : BotState)
    (sig : BarSignals) (ex : Exchange) (h : PosInvariant s) :
    PosInvariant initState ∧
    PosInvariant (tickSig cfg s sig ex).state ∧
    ∀ r ∈ (tickSig cfg s sig ex).trades,
      (r.side = TradeSide.BUY → s.pos_side = Side.FLAT) ∧
      (r.side = TradeSide.SELL → s.pos_side = Side.LONG ∧ r.qty = s.pos_qty) := by
  refine ⟨by simp [PosInvariant, initState], ?_⟩
  obtain ⟨side, qty, entry, lct⟩ := s
  simp only [PosInvariant] at h ⊢
  unfold tickSig tickBody
  cases side <;> cases lct <;>
    simp_all [compute_qty, set_flat, set_long, sellRec, buyRec]
  all_goals repeat' split
  all_goals try simp_all
  all_goals intro hq
  all_goals linarith

/-- Witness for C5: the two invariant components at the initial state and a
concrete tick. -/
theorem position_machine_invariant_witness :
    PosInvariant initState ∧
    PosInvariant (tickSig ⟨1/10, 0, true⟩ initState ⟨1, 100, false, false, false, false⟩
      ⟨Except.error (), Except.ok 100, Except.ok 1000,
        Except.ok ⟨1/10000, 1000, 1/10000, 10⟩, Except.ok (), Except.ok ()⟩).state :=
  ⟨(position_machine_invariant ⟨1/10, 0, true⟩ initState
      ⟨1, 100, false, false, false, false⟩
      ⟨Except.error (), Except.ok 100, Except.ok 1000,
        Except.ok ⟨1/10000, 1000, 1/10000, 10⟩, Except.ok (), Except.ok ()⟩
      (by simp [PosInvariant, initState])).1,
   (position_machine_invariant ⟨1/10, 0, true⟩ initState
      ⟨1, 100, false, false, false, false⟩
      ⟨Except.error (), Except.ok 100, Except.ok 1000,
        Except.ok ⟨1/10000, 1000, 1/10000, 10⟩, Except.ok (), Except.ok ()⟩
      (by simp [PosInvariant, initState])).2.1⟩

/-- C2 (amended): the RSI of `bot_core.py` is `100 − 100/(1 + avgGain/avgLoss)`
at any bar whose trailing means exist with `avgLoss ≠ 0`; it is `50` — not
`100` — at any bar where `avgLoss = 0` (the `replace(0, nan)` guard feeds the
final `fillna(50)`); and it is `50` at any bar lacking enough history. -/
theorem rsi_values (closes : ℕ → ℚ) (len t : ℕ) :
    (t + 1 < len → rsiAt closes len t = 50) ∧
    (avgLoss closes len t = some 0 → rsiAt closes len t = 50) ∧
    (∀ g l : ℚ, avgGain closes len t = some g → avgLoss closes len t = some l →
      l ≠ 0 → rsiAt closes len t = 100 - 100 / (1 + g / l)) := by
  refine ⟨?_, ?_, ?_⟩
  · intro h
    simp [rsiAt, rs, avgGain, rollingMean, h]
  · intro h
    simp [rsiAt, rs, h, replace0]
  · intro g l hg hl hlne
    simp [rsiAt, rs, hg, hl, replace0, hlne]

/-- Counterexample to C2 as stated: on the strictly rising closes
`1, 2, 3, …` with period 2, bar 1 has a full window with `avgLoss = 0`,
and the code yields RSI `50`, not the claimed `100`. -/
theorem rsi_zero_loss_counterexample :
    avgLoss (fun t => (t : ℚ) + 1) 2 1 = some 0 ∧
    rsiAt (fun t => (t : ℚ) + 1) 2 1 = 50 ∧
    rsiAt (fun t => (t : ℚ) + 1) 2 1 ≠ 100 := by
  norm_num [rsiAt, rs, avgGain, avgLoss, replace0, rollingMean, windowSum,
    gain, loss, delta]

/-- Witness for C2 (amended): each of the three regimes at a concrete bar. -/
theorem rsi_values_witness :
    rsiAt (fun t => (t : ℚ) + 1) 2 0 = 50 ∧
    rsiAt (fun t => (t : ℚ) + 1) 2 1 = 50 ∧
    rsiAt (fun t => 2 - (t : ℚ)) 1 1 = 100 - 100 / (1 + 0 / 1) :=
  ⟨(rsi_values (fun t => (t : ℚ) + 1) 2 0).1 (by norm_num),
   (rsi_values (fun t => (t : ℚ) + 1) 2 1).2.1
     (by norm_num [avgLoss, rollingMean, windowSum, loss, delta]),
   (rsi_values (fun t => 2 - (t : ℚ)) 1 1).2.2 0 1
     (by norm_num [avgGain, rollingMean, windowSum, gain, delta])
     (by norm_num [avgLoss, rollingMean, windowSum, loss, delta])
     (by norm_num)⟩

/-- C3 (amended): for `price ≤ 0` the raw quantity is `0`, so the sizer
returns `conform_qty_and_notional 0 price filters`; that is `some 0` when
`minQty = 0` and `minNotional ≤ 0`, but otherwise the min-notional bump
still divides by `price` (faulting at `price = 0`). -/
theorem compute_qty_nonpos_price (bal riskp maxp price : ℚ) (f : SymbolFilters)
    (h : price ≤ 0) :
    compute_qty_core bal riskp maxp price f = conform_qty_and_notional 0 price f ∧
    (f.minQty = 0 → f.minNotional ≤ 0 →
      compute_qty_core bal riskp maxp price f = some 0) := by
  have hnp : ¬ (0 < price) := not_lt.mpr h
  refine ⟨by simp [compute_qty_core, hnp], ?_⟩
  intro hq hn
  have hc : max f.minQty (min (0:ℚ) f.maxQty) = 0 := by
    rw [hq]
    exact max_eq_left (min_le_left 0 f.maxQty)
  have hr : round_step_size 0 f.stepSize = 0 := by
    unfold round_step_size
    split <;> simp
  simp [compute_qty_core, hnp, conform_qty_and_notional, hc, hr, not_lt.mpr hn]

/-- Counterexample to C3 as stated: at `price = 0` (with balance 1000, risk
fraction 1/10, no cap, filters `minQty=0, maxQty=1000, step=0.0001,
minNotional=10`) the sizer does not return quantity 0 — the min-notional
bump divides `minNotional` by the zero price and the call raises
(`none`). -/
theorem compute_qty_zero_price_counterexample :
    compute_qty_core 1000 (1/10) 0 0 ⟨0, 1000, 1/10000, 10⟩ = none ∧
    compute_qty_core 1000 (1/10) 0 0 ⟨0, 1000, 1/10000, 10⟩ ≠ some 0 := by
  have h : compute_qty_core 1000 (1/10) 0 0 ⟨0, 1000, 1/10000, 10⟩ = none := by
    norm_num [compute_qty_core, conform_qty_and_notional, round_step_size]
  exact ⟨h, by rw [h]; simp⟩

/-- Witness for C3 (amended) at `price = -1` with benign filters. -/
theorem compute_qty_nonpos_price_witness :
    compute_qty_core 5 (1/2) 0 (-1) ⟨0, 1000, 1/100, 0⟩ = some 0 :=
  (compute_qty_nonpos_price 5 (1/2) 0 (-1) ⟨0, 1000, 1/100, 0⟩
    (by norm_num)).2 rfl (by norm_num)

/-- C9: whenever the clamped-and-rounded quantity's notional is below
`minNotional` (and the price is positive), the sizer returns
`round_step_size(minNotional / price * 1.01, step)`, with no further
clamping against the risk budget. -/
theorem min_notional_bump (qty price : ℚ) (f : SymbolFilters) (hp : 0 < price)
    (hb : round_step_size (max f.minQty (min qty f.maxQty)) f.stepSize * price
      < f.minNotional) :
    conform_qty_and_notional qty price f
      = some (round_step_size (f.minNotional / price * (101 / 100)) f.stepSize) := by
  simp [conform_qty_and_notional, hb, hp.ne']

/-- Witness for C9, the spec's concrete scenario: balance 25, risk fraction
0.2, price 50, step 0.01, minNotional 10 → raw quantity 0.1, which bumps to
0.20 with notional exactly 10. -/
theorem min_notional_bump_witness :
    conform_qty_and_notional (1/10) 50 ⟨0, 10^12, 1/100, 10⟩ = some (1/5) ∧
    compute_qty_core 25 (1/5) 0 50 ⟨0, 10^12, 1/100, 10⟩ = some (1/5) ∧
    ((1:ℚ)/5) * 50 = 10 := by
  have h := min_notional_bump (1/10) 50 ⟨0, 10^12, 1/100, 10⟩ (by norm_num)
    (by norm_num [round_step_size])
  refine ⟨?_, ?_, by norm_num⟩
  · rw [h]
    norm_num [round_step_size]
  · have h2 : compute_qty_core 25 (1/5) 0 50 ⟨0, 10^12, 1/100, 10⟩
        = conform_qty_and_notional (1/10) 50 ⟨0, 10^12, 1/100, 10⟩ := by
      norm_num [compute_qty_core]
    rw [h2, h]
    norm_num [round_step_size]

/-- C1 (amended): for `price > 0` and `stepSize > 0` the sizer's output `q`
is always an integer multiple of `stepSize`; it satisfies
`minQty ≤ q ≤ maxQty` when `stepSize` divides `minQty`, `minQty ≤ maxQty`
and the min-notional bump is not taken; and `q × price ≥ minNotional`
whenever `stepSize × price ≤ minNotional/100` (the regime in which the 1%
buffer absorbs the rounding loss).  Without those provisos each bound can
fail on non-degenerate inputs. -/
theorem sizer_bounds (qty price q : ℚ) (f : SymbolFilters)
    (hp : 0 < price) (hs : 0 < f.stepSize)
    (hq : conform_qty_and_notional qty price f = some q) :
    (∃ n : ℤ, q = (n : ℚ) * f.stepSize) ∧
    ((∃ k : ℤ, f.minQty = (k : ℚ) * f.stepSize) → f.minQty ≤ f.maxQty →
      f.minNotional ≤
        round_step_size (max f.minQty (min qty f.maxQty)) f.stepSize * price →
      f.minQty ≤ q ∧ q ≤ f.maxQty) ∧
    (100 * (f.stepSize * price) ≤ f.minNotional → f.minNotional ≤ q * price) := by
  have hs' : ¬ f.stepSize ≤ 0 := not_le.mpr hs
  set clamp := max f.minQty (min qty f.maxQty) with hclamp
  have hq1 : round_step_size clamp f.stepSize
      = (⌊clamp / f.stepSize⌋ : ℚ) * f.stepSize := by
    simp [round_step_size, hs']
  by_cases hbump : round_step_size clamp f.stepSize * price < f.minNotional
  · -- the min-notional bump branch
    set b := f.minNotional / price * (101 / 100) with hbdef
    have hqval : round_step_size b f.stepSize = q := by
      simp only [conform_qty_and_notional, ← hclamp, ← hbdef] at hq
      rw [if_pos hbump, if_neg hp.ne'] at hq
      exact Option.some.injEq _ _ ▸ hq
    have hqfl : q = (⌊b / f.stepSize⌋ : ℚ) * f.stepSize := by
      rw [← hqval]
      simp [round_step_size, hs']
    refine ⟨⟨⌊b / f.stepSize⌋, hqfl⟩, ?_, ?_⟩
    · intro _ _ hno
      exact absurd hno (not_le.mpr hbump)
    · intro h100
      have hfl : b / f.stepSize - 1 < ((⌊b / f.stepSize⌋ : ℤ) : ℚ) :=
        Int.sub_one_lt_floor _
      have h1 : (b / f.stepSize - 1) * f.stepSize
          < ((⌊b / f.stepSize⌋ : ℤ) : ℚ) * f.stepSize :=
        mul_lt_mul_of_pos_right hfl hs
      have h2 : (b / f.stepSize - 1) * f.stepSize = b - f.stepSize := by
        field_simp
      have h3 : b * price = f.minNotional * (101 / 100) := by
        rw [hbdef]
        field_simp
        ring
      have h4 : f.stepSize * price ≤ f.minNotional / 100 := by linarith
      have h5 : (b - f.stepSize) * price < q * price := by
        rw [hqfl]
        exact mul_lt_mul_of_pos_right (h2 ▸ h1) hp
      have h6 : (b - f.stepSize) * price = b * price - f.stepSize * price := by
        ring
      linarith
  · -- no bump: the clamped, rounded quantity already meets the notional
    have hqval : round_step_size clamp f.stepSize = q := by
      simp only [conform_qty_and_notional, ← hclamp] at hq
      rw [if_neg hbump] at hq
      exact Option.some.injEq _ _ ▸ hq
    have hqfl : q = (⌊clamp / f.stepSize⌋ : ℚ) * f.stepSize := by
      rw [← hqval, hq1]
    refine ⟨⟨⌊clamp / f.stepSize⌋, hqfl⟩, ?_, ?_⟩
    · rintro ⟨k, hk⟩ hmm _
      constructor
      · have hkq : (k : ℚ) ≤ clamp / f.stepSize := by
          rw [le_div_iff₀ hs]
          calc (k : ℚ) * f.stepSize = f.minQty := hk.symm
            _ ≤ clamp := le_max_left _ _
        have hkfl : (k : ℚ) ≤ ((⌊clamp / f.stepSize⌋ : ℤ) : ℚ) :=
          Int.cast_le.mpr (Int.le_floor.mpr hkq)
        calc f.minQty = (k : ℚ) * f.stepSize := hk
          _ ≤ ((⌊clamp / f.stepSize⌋ : ℤ) : ℚ) * f.stepSize :=
              mul_le_mul_of_nonneg_right hkfl hs.le
          _ = q := hqfl.symm
      · have hfle : ((⌊clamp / f.stepSize⌋ : ℤ) : ℚ) * f.stepSize ≤ clamp := by
          calc ((⌊clamp / f.stepSize⌋ : ℤ) : ℚ) * f.stepSize
              ≤ clamp / f.stepSize * f.stepSize :=
                mul_le_mul_of_nonneg_right (Int.floor_le _) hs.le
            _ = clamp := div_mul_cancel₀ _ hs.ne'
        have hcm : clamp ≤ f.maxQty := max_le hmm (min_le_right _ _)
        calc q = (⌊clamp / f.stepSize⌋ : ℚ) * f.stepSize := hqfl
          _ ≤ clamp := hfle
          _ ≤ f.maxQty := hcm
    · intro _
      rw [← hqval]
      exact not_lt.mp hbump

/-- Counterexample to C1 as stated: at raw quantity 0.17, price 50 and the
non-degenerate filters `minQty=0.15, maxQty=1000, step=0.3, minNotional=10`,
rounding down to the coarse step gives quantity `0`, violating both
`minQty ≤ q` and `q×price ≥ minNotional` although neither `price ≤ 0` nor
`stepSize ≤ 0` holds. -/
theorem sizer_bounds_counterexample :
    (0 : ℚ) < 50 ∧ (0 : ℚ) < 3/10 ∧
    conform_qty_and_notional (17/100) 50 ⟨3/20, 1000, 3/10, 10⟩ = some 0 ∧
    ¬ ((3/20 : ℚ) ≤ 0) ∧ ¬ ((10 : ℚ) ≤ (0 : ℚ) * 50) := by
  norm_num [conform_qty_and_notional, round_step_size]

/-- Witness for C1 (amended), the spec's first sizing scenario: raw quantity
1 at price 100 under filters `minQty=0.0001, maxQty=1000, step=0.0001,
minNotional=10`. -/
theorem sizer_bounds_witness :
    (1/10000 : ℚ) ≤ 1 ∧ (1 : ℚ) ≤ 1000 ∧ (10 : ℚ) ≤ 1 * 100 := by
  have hq : conform_qty_and_notional 1 100 ⟨1/10000, 1000, 1/10000, 10⟩
      = some 1 := by
    norm_num [conform_qty_and_notional, round_step_size]
  have h := sizer_bounds 1 100 1 ⟨1/10000, 1000, 1/10000, 10⟩
    (by norm_num) (by norm_num) hq
  obtain ⟨-, hbnd, hnot⟩ := h
  have hb := hbnd ⟨1, by norm_num⟩ (by norm_num)
    (by norm_num [round_step_size])
  exact ⟨hb.1, hb.2, hnot (by norm_num)⟩

/-- A tick that records a BUY trade did so from the FLAT branch: the record
carries no pnl, and the resulting state is LONG with exactly the record's
quantity and price as position and entry price. -/
theorem buy_trade_inversion (cfg : BotConfig) (s : BotState) (sig : BarSignals)
    (ex : Exchange) (r : TradeRecord)
    (h : (tickSig cfg s sig ex).trades = [r]) (hB : r.side = TradeSide.BUY) :
    r.pnl = none ∧
    (tickSig cfg s sig ex).state.pos_side = Side.LONG ∧
    (tickSig cfg s sig ex).state.pos_qty = r.qty ∧
    (tickSig cfg s sig ex).state.entry_price = r.price := by
  obtain ⟨side, qty, entry, lct⟩ := s
  unfold tickSig tickBody at h ⊢
  cases side <;> cases lct <;>
    simp_all [compute_qty, set_flat, set_long, sellRec, buyRec]
  all_goals repeat' (first | split at h | split)
  all_goals try simp_all [set_long, set_flat, buyRec, sellRec]
  all_goals try (rcases h with rfl)
  all_goals simp_all

/-- A tick that records a SELL trade did so from the LONG branch: the
record's quantity is the full held quantity and its pnl is exactly
`(exit price − entry price) × quantity`. -/
theorem sell_trade_inversion (cfg : BotConfig) (s : BotState) (sig : BarSignals)
    (ex : Exchange) (r : TradeRecord)
    (h : (tickSig cfg s sig ex).trades = [r]) (hS : r.side = TradeSide.SELL) :
    r.qty = s.pos_qty ∧
    r.pnl = some ((r.price - s.entry_price) * s.pos_qty) := by
  obtain ⟨side, qty, entry, lct⟩ := s
  unfold tickSig tickBody at h
  cases side <;> cases lct <;>
    simp_all [compute_qty, set_flat, set_long, sellRec, buyRec]
  all_goals repeat' (first | split at h | split)
  all_goals try simp_all [set_long, set_flat, buyRec, sellRec]
  all_goals try (rcases h with rfl)
  all_goals simp_all

/-- C6: a BUY entry recorded at price `P1` with quantity `Q`, followed on a
later tick by a SELL exit at price `P2`, yields an exit record whose pnl is
exactly `(P2 − P1) × Q`, while the entry record carries no pnl. -/
theorem exit_pnl_exact (cfg : BotConfig) (s : BotState) (sig sig2 : BarSignals)
    (ex ex2 : Exchange) (rB rS : TradeRecord)
    (h1 : (tickSig cfg s sig ex).trades = [rB]) (hB : rB.side = TradeSide.BUY)
    (h2 : (tickSig cfg (tickSig cfg s sig ex).state sig2 ex2).trades = [rS])
    (hS : rS.side = TradeSide.SELL) :
    rS.pnl = some ((rS.price - rB.price) * rB.qty) ∧ rB.pnl = none := by
  obtain ⟨hpnlB, -, hqty, hentry⟩ := buy_trade_inversion cfg s sig ex rB h1 hB
  obtain ⟨hq2, hpnlS⟩ := sell_trade_inversion cfg _ sig2 ex2 rS h2 hS
  rw [hpnlS, hqty, hentry]
  exact ⟨rfl, hpnlB⟩

/-- Witness for C6: a concrete dry-run BUY at price 1 quantity 10 followed
by a SELL at price 3, with pnl `(3 − 1) × 10 = 20`. -/
theorem exit_pnl_exact_witness :
    (⟨TradeSide.SELL, 10, 3, 30, some 20, "exit"⟩ : TradeRecord).pnl
      = some ((((⟨TradeSide.SELL, 10, 3, 30, some 20, "exit"⟩ : TradeRecord).price
          - (⟨TradeSide.BUY, 10, 1, 10, none, "entry"⟩ : TradeRecord).price))
          * (⟨TradeSide.BUY, 10, 1, 10, none, "entry"⟩ : TradeRecord).qty) ∧
    (⟨TradeSide.BUY, 10, 1, 10, none, "entry"⟩ : TradeRecord).pnl = none := by
  have h1 : (tickSig ⟨1, 0, true⟩ ⟨Side.FLAT, 0, 0, none⟩
      ⟨1, 2, true, false, false, false⟩
      ⟨Except.error (), Except.ok 1, Except.ok 10, Except.ok ⟨0, 1000, 1, 0⟩,
        Except.ok (), Except.ok ()⟩).trades
      = [⟨TradeSide.BUY, 10, 1, 10, none, "entry"⟩] := by
    norm_num [tickSig, tickBody, compute_qty, compute_qty_core,
      conform_qty_and_notional, round_step_size, buyRec, set_long]
  have hst : (tickSig ⟨1, 0, true⟩ ⟨Side.FLAT, 0, 0, none⟩
      ⟨1, 2, true, false, false, false⟩
      ⟨Except.error (), Except.ok 1, Except.ok 10, Except.ok ⟨0, 1000, 1, 0⟩,
        Except.ok (), Except.ok ()⟩).state
      = ⟨Side.LONG, 10, 1, some 1⟩ := by
    norm_num [tickSig, tickBody, compute_qty, compute_qty_core,
      conform_qty_and_notional, round_step_size, buyRec, set_long]
  have h2 : (tickSig ⟨1, 0, true⟩ (tickSig ⟨1, 0, true⟩ ⟨Side.FLAT, 0, 0, none⟩
      ⟨1, 2, true, false, false, false⟩
      ⟨Except.error (), Except.ok 1, Except.ok 10, Except.ok ⟨0, 1000, 1, 0⟩,
        Except.ok (), Except.ok ()⟩).state
      ⟨2, 3, false, true, false, false⟩
      ⟨Except.error (), Except.ok 3, Except.ok 0, Except.ok ⟨0, 1000, 1, 0⟩,
        Except.ok (), Except.ok ()⟩).trades
      = [⟨TradeSide.SELL, 10, 3, 30, some 20, "exit"⟩] := by
    rw [hst]
    norm_num [tickSig, tickBody, sellRec, set_flat]
  exact exit_pnl_exact ⟨1, 0, true⟩ ⟨Side.FLAT, 0, 0, none⟩
    ⟨1, 2, true, false, false, false⟩ ⟨2, 3, false, true, false, false⟩
    ⟨Except.error (), Except.ok 1, Except.ok 10, Except.ok ⟨0, 1000, 1, 0⟩,
      Except.ok (), Except.ok ()⟩
    ⟨Except.error (), Except.ok 3, Except.ok 0, Except.ok ⟨0, 1000, 1, 0⟩,
      Except.ok (), Except.ok ()⟩
    _ _ h1 rfl h2 rfl

/-- C8 (amended): a tick in which an exchange call raises performs no
position transition, records no trade and submits no further order — but
the engine's state is *not* always the one from before the tick: every
raise point after the dedup check leaves `last_close_time` already advanced
to the new bar's close time.  Only when the kline fetch itself fails is the
state fully unchanged. -/
theorem transient_error_effects (cfg : BotConfig) (s : BotState) :
    (∀ sig ex, (tickSig cfg s sig ex).raised = true →
      (tickSig cfg s sig ex).trades = [] ∧
      (tickSig cfg s sig ex).orders = [] ∧
      (tickSig cfg s sig ex).state.pos_side = s.pos_side ∧
      (tickSig cfg s sig ex).state.pos_qty = s.pos_qty ∧
      (tickSig cfg s sig ex).state.entry_price = s.entry_price ∧
      (tickSig cfg s sig ex).state.last_close_time = some sig.nct) ∧
    (∀ ex, ex.klines = Except.error () → tick cfg s ex = ⟨s, [], [], true⟩) := by
  constructor
  · intro sig ex h
    obtain ⟨side, qty, entry, lct⟩ := s
    unfold tickSig tickBody at h ⊢
    cases side <;> cases lct <;> simp_all [compute_qty]
    all_goals repeat' (first | split at h | split)
    all_goals simp_all [set_long, set_flat]
  · intro ex h
    simp [tick, h]

/-- Counterexample to C8 as stated: a tick whose live-price fetch raises
(after a fresh bar passed the dedup check) leaves the engine's state
different from before the tick — `last_close_time` has advanced. -/
theorem transient_error_counterexample :
    (tickSig ⟨1, 0, true⟩ ⟨Side.FLAT, 0, 0, some 5⟩
      ⟨6, 100, true, false, false, false⟩
      ⟨Except.error (), Except.error (), Except.error (), Except.error (),
        Except.error (), Except.error ()⟩).raised = true ∧
    (tickSig ⟨1, 0, true⟩ ⟨Side.FLAT, 0, 0, some 5⟩
      ⟨6, 100, true, false, false, false⟩
      ⟨Except.error (), Except.error (), Except.error (), Except.error (),
        Except.error (), Except.error ()⟩).state
      ≠ ⟨Side.FLAT, 0, 0, some 5⟩ := by
  norm_num [tickSig, tickBody]

/-- Witness for C8 (amended) at a concrete raising tick and a concrete
failing fetch. -/
theorem transient_error_effects_witness :
    (tickSig ⟨1, 0, true⟩ ⟨Side.FLAT, 0, 0, some 5⟩
      ⟨6, 100, true, false, false, false⟩
      ⟨Except.error (), Except.error (), Except.error (), Except.error (),
        Except.error (), Except.error ()⟩).trades = [] ∧
    (tickSig ⟨1, 0, true⟩ ⟨Side.FLAT, 0, 0, some 5⟩
      ⟨6, 100, true, false, false, false⟩
      ⟨Except.error (), Except.error (), Except.error (), Except.error (),
        Except.error (), Except.error ()⟩).state.last_close_time = some 6 ∧
    tick ⟨1, 0, true⟩ ⟨Side.FLAT, 0, 0, some 5⟩
      ⟨Except.error (), Except.error (), Except.error (), Except.error (),
        Except.error (), Except.error ()⟩
      = ⟨⟨Side.FLAT, 0, 0, some 5⟩, [], [], true⟩ := by
  have hA := (transient_error_effects ⟨1, 0, true⟩ ⟨Side.FLAT, 0, 0, some 5⟩).1
    ⟨6, 100, true, false, false, false⟩
    ⟨Except.error (), Except.error (), Except.error (), Except.error (),
      Except.error (), Except.error ()⟩
    (by norm_num [tickSig, tickBody])
  have hB := (transient_error_effects ⟨1, 0, true⟩ ⟨Side.FLAT, 0, 0, some 5⟩).2
    ⟨Except.error (), Except.error (), Except.error (), Except.error (),
      Except.error (), Except.error ()⟩ rfl
  exact ⟨hA.1, hA.2.2.2.2.2, hB⟩

/-- C10 (amended): with identical data and successful order submissions, a
dry-run tick and a live tick produce the same state transition, the same
trade records and the same raise status; the only difference is that the
dry-run tick submits no order.  (Without the success proviso the claim
fails: a rejected live order aborts the tick while dry-run proceeds.) -/
theorem dry_run_equiv (riskp maxp : ℚ) (s : BotState) (sig : BarSignals)
    (ex : Exchange) (hb : ex.buy_order = Except.ok ())
    (hsl : ex.sell_order = Except.ok ()) :
    (tickSig ⟨riskp, maxp, true⟩ s sig ex).state
      = (tickSig ⟨riskp, maxp, false⟩ s sig ex).state ∧
    (tickSig ⟨riskp, maxp, true⟩ s sig ex).trades
      = (tickSig ⟨riskp, maxp, false⟩ s sig ex).trades ∧
    (tickSig ⟨riskp, maxp, true⟩ s sig ex).raised
      = (tickSig ⟨riskp, maxp, false⟩ s sig ex).raised ∧
    (tickSig ⟨riskp, maxp, true⟩ s sig ex).orders = [] := by
  obtain ⟨side, qty, entry, lct⟩ := s
  unfold tickSig tickBody
  cases side <;> cases lct <;> simp_all [compute_qty]
  all_goals repeat' split
  all_goals simp_all

/-- Counterexample to C10 as stated: on the same data, if the live BUY
order submission raises, the live tick records no trade while the dry-run
tick records the entry — the trade insertions differ. -/
theorem dry_run_counterexample :
    (tickSig ⟨1, 0, true⟩ ⟨Side.FLAT, 0, 0, none⟩
      ⟨1, 100, true, false, false, false⟩
      ⟨Except.error (), Except.ok 1, Except.ok 10, Except.ok ⟨0, 1000, 1, 0⟩,
        Except.error (), Except.ok ()⟩).trades
    ≠ (tickSig ⟨1, 0, false⟩ ⟨Side.FLAT, 0, 0, none⟩
      ⟨1, 100, true, false, false, false⟩
      ⟨Except.error (), Except.ok 1, Except.ok 10, Except.ok ⟨0, 1000, 1, 0⟩,
        Except.error (), Except.ok ()⟩).trades := by
  norm_num [tickSig, tickBody, compute_qty, compute_qty_core,
    conform_qty_and_notional, round_step_size, buyRec, set_long]

/-- Witness for C10 (amended) at a concrete entry tick with succeeding
orders. -/
theorem dry_run_equiv_witness :
    (tickSig ⟨1, 0, true⟩ ⟨Side.FLAT, 0, 0, none⟩
      ⟨1, 100, true, false, false, false⟩
      ⟨Except.error (), Except.ok 1, Except.ok 10, Except.ok ⟨0, 1000, 1, 0⟩,
        Except.ok (), Except.ok ()⟩).state
      = (tickSig ⟨1, 0, false⟩ ⟨Side.FLAT, 0, 0, none⟩
      ⟨1, 100, true, false, false, false⟩
      ⟨Except.error (), Except.ok 1, Except.ok 10, Except.ok ⟨0, 1000, 1, 0⟩,
        Except.ok (), Except.ok ()⟩).state ∧
    (tickSig ⟨1, 0, true⟩ ⟨Side.FLAT, 0, 0, none⟩
      ⟨1, 100, true, false, false, false⟩
      ⟨Except.error (), Except.ok 1, Except.ok 10, Except.ok ⟨0, 1000, 1, 0⟩,
        Except.ok (), Except.ok ()⟩).trades
      = (tickSig ⟨1, 0, false⟩ ⟨Side.FLAT, 0, 0, none⟩
      ⟨1, 100, true, false, false, false⟩
      ⟨Except.error (), Except.ok 1, Except.ok 10, Except.ok ⟨0, 1000, 1, 0⟩,
        Except.ok (), Except.ok ()⟩).trades ∧
    (tickSig ⟨1, 0, true⟩ ⟨Side.FLAT, 0, 0, none⟩
      ⟨1, 100, true, false, false, false⟩
      ⟨Except.error (), Except.ok 1, Except.ok 10, Except.ok ⟨0, 1000, 1, 0⟩,
        Except.ok (), Except.ok ()⟩).raised
      = (tickSig ⟨1, 0, false⟩ ⟨Side.FLAT, 0, 0, none⟩
      ⟨1, 100, true, false, false, false⟩
      ⟨Except.error (), Except.ok 1, Except.ok 10, Except.ok ⟨0, 1000, 1, 0⟩,
        Except.ok (), Except.ok ()⟩).raised ∧
    (tickSig ⟨1, 0, true⟩ ⟨Side.FLAT, 0, 0, none⟩
      ⟨1, 100, true, false, false, false⟩
      ⟨Except.error (), Except.ok 1, Except.ok 10, Except.ok ⟨0, 1000, 1, 0⟩,
        Except.ok (), Except.ok ()⟩).orders = [] :=
  dry_run_equiv 1 0 ⟨Side.FLAT, 0, 0, none⟩ ⟨1, 100, true, false, false, false⟩
    ⟨Except.error (), Except.ok 1, Except.ok 10, Except.ok ⟨0, 1000, 1, 0⟩,
      Except.ok (), Except.ok ()⟩ rfl rfl

end MBot
